import Mathlib

/-!
Verification of the shader-cube demo (src/C/shader-cube/cube.c) against its
natural-language specification, via a shallow embedding of the C code in Lean.

The embedding mirrors the source file:
* the three global rotation angles and `doSpecialKey` become a pure reducer
  on an `Angles` record;
* `read_shader_source`, `compile_shader` and `init_shaders` become pure
  functions over an explicit environment (file contents, allocation and
  read outcomes, compile/link status flags), returning the produced console
  messages and GL-side events as an explicit trace;
* the legacy GL matrix stack is modelled symbolically: the current modelview
  matrix is the list of operations applied since the last `glLoadIdentity`,
  so that what `glGetFloatv` captures and what `glScalef` later appends can
  be compared exactly;
* the vertex data of `init_buffers` becomes a list of rationals
  (the C literals -0.5f and 0.5f are exactly -1/2 and 1/2).
-/

namespace ShaderCube

/-- freeglut special-key code for the left arrow key. -/
def GLUT_KEY_LEFT : Int := 100

/-- freeglut special-key code for the up arrow key. -/
def GLUT_KEY_UP : Int := 101

/-- freeglut special-key code for the right arrow key. -/
def GLUT_KEY_RIGHT : Int := 102

/-- freeglut special-key code for the down arrow key. -/
def GLUT_KEY_DOWN : Int := 103

/-- freeglut special-key code for the Page Up key. -/
def GLUT_KEY_PAGE_UP : Int := 104

/-- freeglut special-key code for the Page Down key. -/
def GLUT_KEY_PAGE_DOWN : Int := 105

/-- freeglut special-key code for the Home key. -/
def GLUT_KEY_HOME : Int := 106

/-- The three global rotation angles of cube.c
(`int rotateX, rotateY, rotateZ`, all initialized to 0). -/
structure Angles where
  rotateX : Int
  rotateY : Int
  rotateZ : Int
deriving DecidableEq, Repr

/-- The initial value of the three angle globals. -/
def initialAngles : Angles := ⟨0, 0, 0⟩

/-- Shallow embedding of `doSpecialKey(int key, int x, int y)` from cube.c.
The C function mutates the three angle globals and conditionally calls
`glutPostRedisplay()`; here it is the pure reducer
`(key, x, y, angles) -> (angles, redrawRequested)`.  The local `redraw`
flag starts at 1 and is cleared only in the final `else` branch, exactly as
in the source; the mouse coordinates `x` and `y` are never used. -/
def doSpecialKey (key _x _y : Int) (s : Angles) : Angles × Bool :=
  if key = GLUT_KEY_LEFT then ({ s with rotateY := s.rotateY - 15 }, true)
  else if key = GLUT_KEY_RIGHT then ({ s with rotateY := s.rotateY + 15 }, true)
  else if key = GLUT_KEY_DOWN then ({ s with rotateX := s.rotateX + 15 }, true)
  else if key = GLUT_KEY_UP then ({ s with rotateX := s.rotateX - 15 }, true)
  else if key = GLUT_KEY_PAGE_UP then ({ s with rotateZ := s.rotateZ + 15 }, true)
  else if key = GLUT_KEY_PAGE_DOWN then ({ s with rotateZ := s.rotateZ - 15 }, true)
  else if key = GLUT_KEY_HOME then (⟨0, 0, 0⟩, true)
  else (s, false)

/-- Folding `doSpecialKey` over a sequence of key presses (mouse coordinates
are irrelevant, so they are fixed at 0). -/
def applyKeys (ks : List Int) (s : Angles) : Angles :=
  ks.foldl (fun a k => (doSpecialKey k 0 0 a).1) s

/-- The seven keys `doSpecialKey` recognizes. -/
def recognizedKeys : List Int :=
  [GLUT_KEY_LEFT, GLUT_KEY_RIGHT, GLUT_KEY_DOWN, GLUT_KEY_UP,
   GLUT_KEY_PAGE_UP, GLUT_KEY_PAGE_DOWN, GLUT_KEY_HOME]

/-- The console messages cube.c can produce via `printf` during loading,
compilation and linking. -/
inductive ConsoleMsg
  | fileOpenFailed
  | allocFailed
  | readFailed
  | compileFailed
  | linkFailed
deriving DecidableEq, Repr

/-- Environment for one call to `read_shader_source`: the file content if the
path can be opened (`none` models `fopen` returning NULL), whether `malloc`
succeeds, and how many bytes `fread` delivers. -/
structure FileEnv where
  content : Option (List Nat)
  allocOk : Bool
  bytesRead : Nat
deriving DecidableEq, Repr

/-- Shallow embedding of `read_shader_source(const char* filePath)` from
cube.c.  Returns the buffer the C function returns (`none` for NULL) together
with the console messages it prints.  On the success path the C function
stores the `fileSize` bytes read by `fread` into the `fileSize + 1`-byte
buffer and writes a terminating 0 at index `fileSize`, so the buffer is the
file content followed by a null byte. -/
def read_shader_source (e : FileEnv) : Option (List Nat) × List ConsoleMsg :=
  match e.content with
  | none => (none, [ConsoleMsg.fileOpenFailed])
  | some content =>
    let fileSize := content.length
    if e.allocOk = false then (none, [ConsoleMsg.allocFailed])
    else if e.bytesRead < fileSize then (none, [ConsoleMsg.readFailed])
    else (some (content ++ [0]), [])

/-- Shallow embedding of `compile_shader(GLenum type, const char* source)`
from cube.c: `handle` is the (nonzero) name `glCreateShader` returns,
`ok` the `GL_COMPILE_STATUS` flag.  On failure the C function prints the
info log and returns 0. -/
def compile_shader (handle : Nat) (ok : Bool) : Nat × List ConsoleMsg :=
  if ok then (handle, []) else (0, [ConsoleMsg.compileFailed])

/-- Environment for `init_shaders`: the two shader files and the GL
compile/link outcomes. -/
structure ShaderEnv where
  vertexFile : FileEnv
  fragmentFile : FileEnv
  vertexCompileOk : Bool
  fragmentCompileOk : Bool
  linkOk : Bool
deriving DecidableEq, Repr

/-- Observable events of `init_shaders`: console output, `free` of a source
buffer, `glDeleteShader`, and `exit`. -/
inductive InitEvent
  | print (m : ConsoleMsg)
  | freeBuffer
  | deleteShader (handle : Nat)
  | exitProcess (code : Nat)
deriving DecidableEq, Repr

/-- Shallow embedding of `init_shaders()` from cube.c.  GL names are assigned
in creation order: vertex shader 1, fragment shader 2, program 3.  Returns
the event trace and the linked program (`none` when the process exits).
The control flow follows the source line by line: read the vertex source and
`exit(1)` if NULL; compile it, free the source, `exit(1)` if compilation
failed; same for the fragment shader; link; on link failure print the log
and `exit(1)`; only then delete the two shader objects. -/
def init_shaders (env : ShaderEnv) : List InitEvent × Option Nat :=
  let v := read_shader_source env.vertexFile
  let t0 := v.2.map InitEvent.print
  match v.1 with
  | none => (t0 ++ [InitEvent.exitProcess 1], none)
  | some _ =>
    let vc := compile_shader 1 env.vertexCompileOk
    let t1 := t0 ++ vc.2.map InitEvent.print ++ [InitEvent.freeBuffer]
    if vc.1 = 0 then (t1 ++ [InitEvent.exitProcess 1], none)
    else
      let f := read_shader_source env.fragmentFile
      let t2 := t1 ++ f.2.map InitEvent.print
      match f.1 with
      | none => (t2 ++ [InitEvent.exitProcess 1], none)
      | some _ =>
        let fc := compile_shader 2 env.fragmentCompileOk
        let t3 := t2 ++ fc.2.map InitEvent.print ++ [InitEvent.freeBuffer]
        if fc.1 = 0 then (t3 ++ [InitEvent.exitProcess 1], none)
        else if env.linkOk = false then
          (t3 ++ [InitEvent.print ConsoleMsg.linkFailed, InitEvent.exitProcess 1], none)
        else (t3 ++ [InitEvent.deleteShader 1, InitEvent.deleteShader 2], some 3)

/-- A symbolic operation applied to the legacy GL modelview matrix:
`glRotatef(angle, ax, ay, az)` or `glScalef(sx, sy, sz)`. -/
inductive MOp
  | rotate (angle : Int) (ax ay az : ℚ)
  | scale (sx sy sz : ℚ)
deriving DecidableEq, Repr

/-- The modelview matrix built by `draw`'s three `glRotatef` calls after
`glLoadIdentity`: rotate about X by `rotateX`, then Y by `rotateY`, then Z by
`rotateZ`. -/
def rotationOps (a : Angles) : List MOp :=
  [MOp.rotate a.rotateX 1 0 0, MOp.rotate a.rotateY 0 1 0, MOp.rotate a.rotateZ 0 0 1]

/-- The GL state cube.c interacts with: the two global handles, the current
modelview matrix (symbolically, as the operations applied since the last
`glLoadIdentity`), the last matrix uploaded to the `model` uniform, and the
contents of the vertex buffer object. -/
structure GLState where
  shader_program : Nat
  VAO : Nat
  modelview : List MOp
  modelUniform : Option (List MOp)
  buffer : List ℚ
deriving DecidableEq, Repr

/-- GL calls `draw` makes that matter for ordering. -/
inductive GLEvent
  | useProgram (p : Nat)
  | uploadModel (m : List MOp)
  | bindVertexArray (v : Nat)
  | drawArrays (first count : Nat)
deriving DecidableEq, Repr

/-- Shallow embedding of `draw()` from cube.c, line by line:
`glUseProgram`; `glMatrixMode(GL_MODELVIEW)`; `glLoadIdentity`; three
`glRotatef` calls; `glGetFloatv(GL_MODELVIEW_MATRIX, modelMatrix)` captures
the current matrix; `glGetUniformLocation` + `glUniformMatrix4fv` upload the
captured matrix to the `model` uniform; `glBindVertexArray(VAO)`;
`glScalef(0.5, 0.5, 0.5)` appends a scale to the (already captured) modelview
matrix; `glDrawArrays(GL_TRIANGLES, 0, 36)`. -/
def draw (a : Angles) (st : GLState) : GLState × List GLEvent :=
  let m0 : List MOp := []
  let m1 := m0 ++ [MOp.rotate a.rotateX 1 0 0]
  let m2 := m1 ++ [MOp.rotate a.rotateY 0 1 0]
  let m3 := m2 ++ [MOp.rotate a.rotateZ 0 0 1]
  let modelMatrix := m3
  let st1 : GLState := { st with modelview := m3, modelUniform := some modelMatrix }
  let st2 : GLState := { st1 with modelview := st1.modelview ++ [MOp.scale (1/2) (1/2) (1/2)] }
  (st2, [GLEvent.useProgram st.shader_program, GLEvent.uploadModel modelMatrix,
         GLEvent.bindVertexArray st.VAO, GLEvent.drawArrays 0 36])

/-- The 108-float vertex array of `init_buffers()` in cube.c
(-0.5f and 0.5f are exactly -1/2 and 1/2). -/
def vertices : List ℚ :=
  [-1/2, -1/2, -1/2,
    1/2, -1/2, -1/2,
    1/2,  1/2, -1/2,
    1/2,  1/2, -1/2,
   -1/2,  1/2, -1/2,
   -1/2, -1/2, -1/2,

   -1/2, -1/2,  1/2,
    1/2, -1/2,  1/2,
    1/2,  1/2,  1/2,
    1/2,  1/2,  1/2,
   -1/2,  1/2,  1/2,
   -1/2, -1/2,  1/2,

   -1/2,  1/2,  1/2,
   -1/2,  1/2, -1/2,
   -1/2, -1/2, -1/2,
   -1/2, -1/2, -1/2,
   -1/2, -1/2,  1/2,
   -1/2,  1/2,  1/2,

    1/2,  1/2,  1/2,
    1/2,  1/2, -1/2,
    1/2, -1/2, -1/2,
    1/2, -1/2, -1/2,
    1/2, -1/2,  1/2,
    1/2,  1/2,  1/2,

   -1/2, -1/2, -1/2,
    1/2, -1/2, -1/2,
    1/2, -1/2,  1/2,
    1/2, -1/2,  1/2,
   -1/2, -1/2,  1/2,
   -1/2, -1/2, -1/2,

   -1/2,  1/2, -1/2,
    1/2,  1/2, -1/2,
    1/2,  1/2,  1/2,
    1/2,  1/2,  1/2,
   -1/2,  1/2,  1/2,
   -1/2,  1/2, -1/2]

/-- Shallow embedding of `init_buffers()`: uploads the vertex array into the
bound vertex buffer object with `glBufferData(GL_ARRAY_BUFFER,
sizeof(vertices), vertices, GL_STATIC_DRAW)`. -/
def init_buffers (st : GLState) : GLState :=
  { st with buffer := vertices }

/-- The whole mutable state of the process: the GL state plus the three
rotation-angle globals. -/
structure SysState where
  gl : GLState
  angles : Angles
deriving DecidableEq, Repr

/-- `doSpecialKey` acting on the whole process state: it reads and writes
only the three angle globals and the redraw flag. -/
def sysKey (key x y : Int) (s : SysState) : SysState × Bool :=
  ({ s with angles := (doSpecialKey key x y s.angles).1 },
   (doSpecialKey key x y s.angles).2)

/-- `draw` acting on the whole process state. -/
def sysDraw (s : SysState) : SysState × List GLEvent :=
  ({ s with gl := (draw s.angles s.gl).1 }, (draw s.angles s.gl).2)

/-- A concrete GL state: program handle 3, VAO handle 1, identity modelview,
no uniform uploaded yet, cube geometry in the buffer. -/
def st0 : GLState := ⟨3, 1, [], none, vertices⟩

/-- A concrete environment where both shader files load and compile but the
program fails to link. -/
def linkFailEnv : ShaderEnv :=
  ⟨⟨some [65], true, 1⟩, ⟨some [66], true, 1⟩, true, true, false⟩

/-- A concrete environment where loading, compilation and linking all
succeed. -/
def okEnv : ShaderEnv :=
  ⟨⟨some [65], true, 1⟩, ⟨some [66], true, 1⟩, true, true, true⟩

theorem applyKeys_nil (s : Angles) : applyKeys [] s = s := rfl

theorem applyKeys_cons (k : Int) (ks : List Int) (s : Angles) :
    applyKeys (k :: ks) s = applyKeys ks (doSpecialKey k 0 0 s).1 := rfl

/-- Claim C1: the input handler is a pure reducer on the three rotation angles
with a fixed 15-degree step (Left: Y -= 15; Right: Y += 15; Down: X += 15;
Up: X -= 15; Page Up: Z += 15; Page Down: Z -= 15; Home: X = Y = Z = 0), and
from (0,0,0) the sequence Right, Right, Down yields (X=15, Y=30, Z=0), after
which Home yields (0,0,0). -/
theorem doSpecialKey_transition_table :
    (∀ x y s, (doSpecialKey GLUT_KEY_LEFT x y s).1 = { s with rotateY := s.rotateY - 15 })
    ∧ (∀ x y s, (doSpecialKey GLUT_KEY_RIGHT x y s).1 = { s with rotateY := s.rotateY + 15 })
    ∧ (∀ x y s, (doSpecialKey GLUT_KEY_DOWN x y s).1 = { s with rotateX := s.rotateX + 15 })
    ∧ (∀ x y s, (doSpecialKey GLUT_KEY_UP x y s).1 = { s with rotateX := s.rotateX - 15 })
    ∧ (∀ x y s, (doSpecialKey GLUT_KEY_PAGE_UP x y s).1 = { s with rotateZ := s.rotateZ + 15 })
    ∧ (∀ x y s, (doSpecialKey GLUT_KEY_PAGE_DOWN x y s).1 = { s with rotateZ := s.rotateZ - 15 })
    ∧ (∀ x y s, (doSpecialKey GLUT_KEY_HOME x y s).1 = ⟨0, 0, 0⟩)
    ∧ applyKeys [GLUT_KEY_RIGHT, GLUT_KEY_RIGHT, GLUT_KEY_DOWN] initialAngles = ⟨15, 30, 0⟩
    ∧ applyKeys [GLUT_KEY_RIGHT, GLUT_KEY_RIGHT, GLUT_KEY_DOWN, GLUT_KEY_HOME] initialAngles
        = ⟨0, 0, 0⟩ := by
  refine ⟨fun x y s => rfl, fun x y s => rfl, fun x y s => rfl, fun x y s => rfl,
    fun x y s => rfl, fun x y s => rfl, fun x y s => rfl, by decide, by decide⟩

/-- Claim C9: Home is idempotent — pressing Home from (0,0,0) leaves (0,0,0),
and applying the Home transition twice from any state equals applying it once. -/
theorem doSpecialKey_home_idempotent :
    (∀ x y, (doSpecialKey GLUT_KEY_HOME x y initialAngles).1 = initialAngles)
    ∧ (∀ x y x2 y2 s,
        (doSpecialKey GLUT_KEY_HOME x2 y2 (doSpecialKey GLUT_KEY_HOME x y s).1).1
          = (doSpecialKey GLUT_KEY_HOME x y s).1) :=
  ⟨fun _ _ => rfl, fun _ _ _ _ _ => rfl⟩

/-- Claim C10: `doSpecialKey` ignores the mouse coordinates — the resulting
angle state and the redraw decision depend only on the key and the prior
angle state, never on the x and y arguments. -/
theorem doSpecialKey_ignores_mouse :
    ∀ (key x1 y1 x2 y2 : Int) (s : Angles),
      doSpecialKey key x1 y1 s = doSpecialKey key x2 y2 s :=
  fun _ _ _ _ _ _ => rfl

theorem applyKeys_count_left_right (ks : List Int) :
    ∀ s : Angles, (∀ k ∈ ks, k = GLUT_KEY_LEFT ∨ k = GLUT_KEY_RIGHT) →
      applyKeys ks s =
        ⟨s.rotateX,
         s.rotateY + 15 * ((ks.count GLUT_KEY_RIGHT : Int) - (ks.count GLUT_KEY_LEFT : Int)),
         s.rotateZ⟩ := by
  induction ks with
  | nil => intro s _; simp [applyKeys]
  | cons k ks ih =>
    intro s h
    have hrest : ∀ k2 ∈ ks, k2 = GLUT_KEY_LEFT ∨ k2 = GLUT_KEY_RIGHT :=
      fun k2 hk2 => h k2 (List.mem_cons_of_mem _ hk2)
    rcases h k (List.mem_cons_self k ks) with rfl | rfl
    · rw [applyKeys_cons]
      have hstep : (doSpecialKey GLUT_KEY_LEFT 0 0 s).1 = { s with rotateY := s.rotateY - 15 } :=
        rfl
      rw [hstep, ih _ hrest]
      simp only [Angles.mk.injEq, List.count_cons, GLUT_KEY_LEFT, GLUT_KEY_RIGHT]
      norm_num
      omega
    · rw [applyKeys_cons]
      have hstep : (doSpecialKey GLUT_KEY_RIGHT 0 0 s).1 = { s with rotateY := s.rotateY + 15 } :=
        rfl
      rw [hstep, ih _ hrest]
      simp only [Angles.mk.injEq, List.count_cons, GLUT_KEY_LEFT, GLUT_KEY_RIGHT]
      norm_num
      omega

theorem applyKeys_count_up_down (ks : List Int) :
    ∀ s : Angles, (∀ k ∈ ks, k = GLUT_KEY_UP ∨ k = GLUT_KEY_DOWN) →
      applyKeys ks s =
        ⟨s.rotateX + 15 * ((ks.count GLUT_KEY_DOWN : Int) - (ks.count GLUT_KEY_UP : Int)),
         s.rotateY, s.rotateZ⟩ := by
  induction ks with
  | nil => intro s _; simp [applyKeys]
  | cons k ks ih =>
    intro s h
    have hrest : ∀ k2 ∈ ks, k2 = GLUT_KEY_UP ∨ k2 = GLUT_KEY_DOWN :=
      fun k2 hk2 => h k2 (List.mem_cons_of_mem _ hk2)
    rcases h k (List.mem_cons_self k ks) with rfl | rfl
    · rw [applyKeys_cons]
      have hstep : (doSpecialKey GLUT_KEY_UP 0 0 s).1 = { s with rotateX := s.rotateX - 15 } :=
        rfl
      rw [hstep, ih _ hrest]
      simp only [Angles.mk.injEq, List.count_cons, GLUT_KEY_UP, GLUT_KEY_DOWN]
      norm_num
      omega
    · rw [applyKeys_cons]
      have hstep : (doSpecialKey GLUT_KEY_DOWN 0 0 s).1 = { s with rotateX := s.rotateX + 15 } :=
        rfl
      rw [hstep, ih _ hrest]
      simp only [Angles.mk.injEq, List.count_cons, GLUT_KEY_UP, GLUT_KEY_DOWN]
      norm_num
      omega

theorem applyKeys_count_pages (ks : List Int) :
    ∀ s : Angles, (∀ k ∈ ks, k = GLUT_KEY_PAGE_UP ∨ k = GLUT_KEY_PAGE_DOWN) →
      applyKeys ks s =
        ⟨s.rotateX, s.rotateY,
         s.rotateZ + 15 * ((ks.count GLUT_KEY_PAGE_UP : Int) - (ks.count GLUT_KEY_PAGE_DOWN : Int))⟩ := by
  induction ks with
  | nil => intro s _; simp [applyKeys]
  | cons k ks ih =>
    intro s h
    have hrest : ∀ k2 ∈ ks, k2 = GLUT_KEY_PAGE_UP ∨ k2 = GLUT_KEY_PAGE_DOWN :=
      fun k2 hk2 => h k2 (List.mem_cons_of_mem _ hk2)
    rcases h k (List.mem_cons_self k ks) with rfl | rfl
    · rw [applyKeys_cons]
      have hstep : (doSpecialKey GLUT_KEY_PAGE_UP 0 0 s).1
          = { s with rotateZ := s.rotateZ + 15 } := rfl
      rw [hstep, ih _ hrest]
      simp only [Angles.mk.injEq, List.count_cons, GLUT_KEY_PAGE_UP, GLUT_KEY_PAGE_DOWN]
      norm_num
      omega
    · rw [applyKeys_cons]
      have hstep : (doSpecialKey GLUT_KEY_PAGE_DOWN 0 0 s).1
          = { s with rotateZ := s.rotateZ - 15 } := rfl
      rw [hstep, ih _ hrest]
      simp only [Angles.mk.injEq, List.count_cons, GLUT_KEY_PAGE_UP, GLUT_KEY_PAGE_DOWN]
      norm_num
      omega

/-- Claim C4: for a sequence of Left/Right presses from (0,0,0), the Y angle
is 15 * (rights - lefts) while X and Z stay 0; analogously X is
15 * (downs - ups) under Down/Up, and Z is 15 * (pageups - pagedowns) under
PageUp/PageDown. -/
theorem applyKeys_axis_counts :
    (∀ ks : List Int, (∀ k ∈ ks, k = GLUT_KEY_LEFT ∨ k = GLUT_KEY_RIGHT) →
      applyKeys ks initialAngles =
        ⟨0, 15 * ((ks.count GLUT_KEY_RIGHT : Int) - (ks.count GLUT_KEY_LEFT : Int)), 0⟩)
    ∧ (∀ ks : List Int, (∀ k ∈ ks, k = GLUT_KEY_UP ∨ k = GLUT_KEY_DOWN) →
      applyKeys ks initialAngles =
        ⟨15 * ((ks.count GLUT_KEY_DOWN : Int) - (ks.count GLUT_KEY_UP : Int)), 0, 0⟩)
    ∧ (∀ ks : List Int, (∀ k ∈ ks, k = GLUT_KEY_PAGE_UP ∨ k = GLUT_KEY_PAGE_DOWN) →
      applyKeys ks initialAngles =
        ⟨0, 0, 15 * ((ks.count GLUT_KEY_PAGE_UP : Int) - (ks.count GLUT_KEY_PAGE_DOWN : Int))⟩) := by
  refine ⟨fun ks h => ?_, fun ks h => ?_, fun ks h => ?_⟩
  · rw [applyKeys_count_left_right ks initialAngles h]; simp [initialAngles]
  · rw [applyKeys_count_up_down ks initialAngles h]; simp [initialAngles]
  · rw [applyKeys_count_pages ks initialAngles h]; simp [initialAngles]

/-- Witness for C4 at concrete key sequences. -/
theorem applyKeys_axis_counts_witness :
    applyKeys [GLUT_KEY_RIGHT, GLUT_KEY_RIGHT, GLUT_KEY_LEFT] initialAngles = ⟨0, 15, 0⟩
    ∧ applyKeys [GLUT_KEY_DOWN, GLUT_KEY_UP, GLUT_KEY_DOWN] initialAngles = ⟨15, 0, 0⟩
    ∧ applyKeys [GLUT_KEY_PAGE_UP, GLUT_KEY_PAGE_DOWN, GLUT_KEY_PAGE_UP] initialAngles
        = ⟨0, 0, 15⟩ := by
  refine ⟨?_, ?_, ?_⟩
  · rw [applyKeys_axis_counts.1 [GLUT_KEY_RIGHT, GLUT_KEY_RIGHT, GLUT_KEY_LEFT] (by decide)]
    decide
  · rw [applyKeys_axis_counts.2.1 [GLUT_KEY_DOWN, GLUT_KEY_UP, GLUT_KEY_DOWN] (by decide)]
    decide
  · rw [applyKeys_axis_counts.2.2 [GLUT_KEY_PAGE_UP, GLUT_KEY_PAGE_DOWN, GLUT_KEY_PAGE_UP]
      (by decide)]
    decide

/-- Claim C5: a key outside the seven recognized keys leaves the angles
unchanged and does not request a redraw; every recognized key (Home
included) requests a redraw. -/
theorem doSpecialKey_redraw_iff_recognized :
    (∀ (key x y : Int) (s : Angles), key ∉ recognizedKeys →
        doSpecialKey key x y s = (s, false))
    ∧ (∀ (key x y : Int) (s : Angles), key ∈ recognizedKeys →
        (doSpecialKey key x y s).2 = true) := by
  constructor
  · intro key x y s h
    simp only [recognizedKeys, List.mem_cons, List.mem_singleton] at h
    push_neg at h
    obtain ⟨h1, h2, h3, h4, h5, h6, h7⟩ := h
    simp [doSpecialKey, h1, h2, h3, h4, h5, h6, h7]
  · intro key x y s h
    simp only [recognizedKeys] at h
    fin_cases h <;> rfl

/-- Witness for C5: key code 107 (End) is a no-op without redraw; Home
requests a redraw. -/
theorem doSpecialKey_redraw_iff_recognized_witness :
    doSpecialKey 107 1 2 initialAngles = (initialAngles, false)
    ∧ (doSpecialKey GLUT_KEY_HOME 5 6 initialAngles).2 = true :=
  ⟨doSpecialKey_redraw_iff_recognized.1 107 1 2 initialAngles (by decide),
   doSpecialKey_redraw_iff_recognized.2 GLUT_KEY_HOME 5 6 initialAngles (by decide)⟩

/-- Claim C2: for a file of N bytes that can be opened (with allocation
succeeding and `fread` delivering the full content, the environmental
success conditions of the C code), `read_shader_source` returns a buffer of
exactly N+1 bytes whose first N bytes are the file content and whose last
byte is 0; for a path that cannot be opened it prints the failure message
and returns NULL. -/
theorem read_shader_source_roundtrip :
    (∀ (content : List Nat) (a : Bool) (n : Nat),
        a = true → content.length ≤ n →
          ∃ buf, read_shader_source ⟨some content, a, n⟩ = (some buf, [])
            ∧ buf.length = content.length + 1
            ∧ buf.take content.length = content
            ∧ buf.getLast? = some 0)
    ∧ (∀ (a : Bool) (n : Nat),
        read_shader_source ⟨none, a, n⟩ = (none, [ConsoleMsg.fileOpenFailed])) := by
  constructor
  · rintro content a n rfl hn
    refine ⟨content ++ [0], ?_, ?_, ?_, ?_⟩
    · simp [read_shader_source, Nat.not_lt.mpr hn]
    · simp
    · simp [List.take_left]
    · simp
  · intro a n
    rfl

/-- Witness for C2 at a concrete 3-byte file and at an unopenable path. -/
theorem read_shader_source_roundtrip_witness :
    (∃ buf, read_shader_source ⟨some [104, 101, 108], true, 3⟩ = (some buf, [])
      ∧ buf.length = 4 ∧ buf.take 3 = [104, 101, 108] ∧ buf.getLast? = some 0)
    ∧ read_shader_source ⟨none, true, 0⟩ = (none, [ConsoleMsg.fileOpenFailed]) :=
  ⟨read_shader_source_roundtrip.1 [104, 101, 108] true 3 rfl (by decide),
   read_shader_source_roundtrip.2 true 0⟩

/-- Claim C6: the vertex array has exactly 108 floats (36 vertices of 3
components), every coordinate is 1/2 or -1/2, `init_buffers` uploads exactly
this array, and neither key handling nor drawing ever changes the buffer. -/
theorem vertices_invariant :
    vertices.length = 108
    ∧ (∀ v ∈ vertices, v = 1/2 ∨ v = -1/2)
    ∧ (∀ st : GLState, (init_buffers st).buffer = vertices)
    ∧ (∀ (key x y : Int) (s : SysState), ((sysKey key x y s).1).gl.buffer = s.gl.buffer)
    ∧ (∀ s : SysState, ((sysDraw s).1).gl.buffer = s.gl.buffer) :=
  ⟨by decide, by intro v hv; fin_cases hv <;> norm_num,
   fun _ => rfl, fun _ _ _ _ => rfl, fun _ => rfl⟩

/-- Witness for C6 at the first coordinate of the vertex array. -/
theorem vertices_invariant_witness :
    ((-1/2 : ℚ) = 1/2 ∨ (-1/2 : ℚ) = -1/2) :=
  vertices_invariant.2.1 (-1/2) (List.mem_cons_self _ _)

/-- Counterexample to claim C3 as stated: the matrix uploaded to the `model`
uniform does not contain the 0.5 scale — `glScalef` runs only after
`glGetFloatv` captured the matrix and after the upload. -/
theorem draw_upload_includes_scale_counterexample :
    (draw initialAngles st0).1.modelUniform
      ≠ some (rotationOps initialAngles ++ [MOp.scale (1/2) (1/2) (1/2)]) := by
  simp [draw, st0, rotationOps, initialAngles]

/-- Claim C3 (amended): on each redraw, `draw` computes the rotation-only
transform from the three angles, uploads it to the `model` uniform before
the 36-vertex draw call, and only afterwards applies the fixed 0.5 scale to
the legacy matrix stack, so the scale is not part of the uploaded
transform. -/
theorem draw_uploads_rotation_only :
    ∀ (a : Angles) (st : GLState),
      (draw a st).1.modelUniform = some (rotationOps a)
      ∧ (draw a st).2 =
          [GLEvent.useProgram st.shader_program, GLEvent.uploadModel (rotationOps a),
           GLEvent.bindVertexArray st.VAO, GLEvent.drawArrays 0 36]
      ∧ (draw a st).1.modelview = rotationOps a ++ [MOp.scale (1/2) (1/2) (1/2)] :=
  fun _ _ => ⟨rfl, rfl, rfl⟩

/-- Counterexample to claim C7 as stated: when both stages compile but the
link fails, `init_shaders` exits before the `glDeleteShader` calls, so
neither stage object is deleted on the link-failure path. -/
theorem init_shaders_link_fail_no_delete_counterexample :
    ¬ (InitEvent.deleteShader 1 ∈ (init_shaders linkFailEnv).1
       ∧ InitEvent.deleteShader 2 ∈ (init_shaders linkFailEnv).1) := by
  decide

/-- Claim C7 (amended): the two compiled stage objects are deleted exactly on
the success path — after a successful link both are deleted, while on every
failure path (link failure included) the process exits without deleting
any stage object. -/
theorem init_shaders_delete_only_on_success :
    ∀ env : ShaderEnv,
      ((init_shaders env).2 ≠ none →
        InitEvent.deleteShader 1 ∈ (init_shaders env).1
        ∧ InitEvent.deleteShader 2 ∈ (init_shaders env).1)
      ∧ ((init_shaders env).2 = none →
        ∀ h : Nat, InitEvent.deleteShader h ∉ (init_shaders env).1) := by
  rintro ⟨⟨vc, va, vn⟩, ⟨fc, fa, fn⟩, vok, fok, lok⟩
  cases vc with
  | none => simp [init_shaders, read_shader_source, compile_shader]
  | some vl =>
    cases va with
    | false => simp [init_shaders, read_shader_source, compile_shader]
    | true =>
      by_cases hv : vn < vl.length
      · simp [init_shaders, read_shader_source, compile_shader, hv]
      · cases vok with
        | false => simp [init_shaders, read_shader_source, compile_shader, hv]
        | true =>
          cases fc with
          | none => simp [init_shaders, read_shader_source, compile_shader, hv]
          | some fl =>
            cases fa with
            | false => simp [init_shaders, read_shader_source, compile_shader, hv]
            | true =>
              by_cases hf : fn < fl.length
              · simp [init_shaders, read_shader_source, compile_shader, hv, hf]
              · cases fok with
                | false => simp [init_shaders, read_shader_source, compile_shader, hv, hf]
                | true =>
                  cases lok with
                  | false => simp [init_shaders, read_shader_source, compile_shader, hv, hf]
                  | true => simp [init_shaders, read_shader_source, compile_shader, hv, hf]

/-- Witness for C7 (amended) at a concrete all-success environment. -/
theorem init_shaders_delete_only_on_success_witness :
    InitEvent.deleteShader 1 ∈ (init_shaders okEnv).1
    ∧ InitEvent.deleteShader 2 ∈ (init_shaders okEnv).1 :=
  (init_shaders_delete_only_on_success okEnv).1 (by decide)

/-- Claim C8: `init_shaders` exits with code 1 exactly when a shader source
file cannot be loaded, a stage fails to compile, or the program fails to
link; on every such failure the exit is the last event and is preceded by a
console message, and on success no exit happens at all. -/
theorem init_shaders_exit_one_iff_failure :
    ∀ env : ShaderEnv,
      (((init_shaders env).2 = none) ↔
        ((read_shader_source env.vertexFile).1 = none
          ∨ env.vertexCompileOk = false
          ∨ (read_shader_source env.fragmentFile).1 = none
          ∨ env.fragmentCompileOk = false
          ∨ env.linkOk = false))
      ∧ ((init_shaders env).2 = none →
          (init_shaders env).1.getLast? = some (InitEvent.exitProcess 1)
          ∧ ∃ m, InitEvent.print m ∈ (init_shaders env).1)
      ∧ ((init_shaders env).2 ≠ none →
          ∀ c : Nat, InitEvent.exitProcess c ∉ (init_shaders env).1) := by
  rintro ⟨⟨vc, va, vn⟩, ⟨fc, fa, fn⟩, vok, fok, lok⟩
  cases vc with
  | none => simp [init_shaders, read_shader_source, compile_shader]
  | some vl =>
    cases va with
    | false => simp [init_shaders, read_shader_source, compile_shader]
    | true =>
      by_cases hv : vn < vl.length
      · simp [init_shaders, read_shader_source, compile_shader, hv]
      · cases vok with
        | false => simp [init_shaders, read_shader_source, compile_shader, hv]
        | true =>
          cases fc with
          | none => simp [init_shaders, read_shader_source, compile_shader, hv]
          | some fl =>
            cases fa with
            | false => simp [init_shaders, read_shader_source, compile_shader, hv]
            | true =>
              by_cases hf : fn < fl.length
              · simp [init_shaders, read_shader_source, compile_shader, hv, hf]
              · cases fok with
                | false => simp [init_shaders, read_shader_source, compile_shader, hv, hf]
                | true =>
                  cases lok with
                  | false => simp [init_shaders, read_shader_source, compile_shader, hv, hf]
                  | true => simp [init_shaders, read_shader_source, compile_shader, hv, hf]

/-- Witness for C8 at a concrete link-failure environment. -/
theorem init_shaders_exit_one_iff_failure_witness :
    (init_shaders linkFailEnv).1.getLast? = some (InitEvent.exitProcess 1)
    ∧ ∃ m, InitEvent.print m ∈ (init_shaders linkFailEnv).1 :=
  (init_shaders_exit_one_iff_failure linkFailEnv).2.1 (by decide)

end ShaderCube
